import Mathlib

/-!
Verification of the FlaskTutorial reservation service against its
natural-language specification.

The development shallowly embeds the request handlers of
`reservation/views/reservations.py` and the app-level pieces of
`reservation/__init__.py` as pure Lean functions over an explicit store
state.  JSON request bodies are an inductive `Json` type; Python-level
semantics that the handlers rely on (truthiness, `in` membership,
`int(...)`, `datetime.fromisoformat`, SQL `ILIKE`) are modelled as
executable functions.  The external datetime library is abstracted by a
parser parameter `fromiso : String → Option Int` (a timestamp in abstract
ticks) and a formatter parameter `iso : Int → String`, since the service
treats it as an opaque collaborator.
-/

set_option autoImplicit false

namespace FlaskRes

/-- JSON values, as delivered by `request.get_json()`.  Numbers are
modelled as integers; every claim under study only exercises integer
numbers. -/
inductive Json where
  | null
  | bool (b : Bool)
  | num (n : Int)
  | str (s : String)
  | arr (xs : List Json)
  | obj (fields : List (String × Json))
  deriving Repr

deriving instance DecidableEq for Except

/-- Python exceptions that the handler code can raise or catch. -/
inductive PyErr where
  | valueError
  | typeError
  | attributeError
  deriving DecidableEq, Repr

/-- Python truthiness of a JSON value: `None`, `False`, `0`, `""`, `[]`
and `{}` are falsy, everything else truthy. -/
def pyTruthy : Json → Bool
  | .null => false
  | .bool b => b
  | .num n => n != 0
  | .str s => s != ""
  | .arr xs => !xs.isEmpty
  | .obj fs => !fs.isEmpty

/-- First binding of a key in an object field list (Python dict lookup;
JSON objects have unique keys, so first binding is the binding). -/
def jsonLookup (fs : List (String × Json)) (k : String) : Option Json :=
  (fs.find? (fun kv => kv.1 == k)).map (fun kv => kv.2)

/-- Naive substring test, modelling Python `sub in s` for strings. -/
def strContains (s sub : String) : Bool :=
  sub == "" || (s.splitOn sub).length ≥ 2

/-- Python `field in body`: key membership for dicts, element membership
for lists, substring for strings; `TypeError` otherwise. -/
def pyContains (body : Json) (field : String) : Except PyErr Bool :=
  match body with
  | .obj fs => .ok (jsonLookup fs field).isSome
  | .arr xs => .ok (xs.any (fun j => match j with | .str s => s == field | _ => false))
  | .str s => .ok (strContains s field)
  | _ => .error .typeError

/-- The required fields of a create-reservation payload. -/
def fieldsReq : List String := ["name", "email", "size", "time"]

/-- Python `all(field in body for field in fields_req)`. -/
def allFieldsIn (body : Json) : Except PyErr Bool :=
  match body with
  | .obj fs => .ok (fieldsReq.all (fun k => (jsonLookup fs k).isSome))
  | .arr xs => .ok (fieldsReq.all (fun k =>
      xs.any (fun j => match j with | .str s => s == k | _ => false)))
  | .str s => .ok (fieldsReq.all (fun k => strContains s k))
  | _ => .error .typeError

/-- Python `all(val for field, val in body.items() if field in fields_req)`:
iterating `.items()` requires a dict, else `AttributeError`. -/
def allReqTruthy (body : Json) : Except PyErr Bool :=
  match body with
  | .obj fs => .ok (fs.all (fun kv => !(fieldsReq.contains kv.1) || pyTruthy kv.2))
  | _ => .error .attributeError

/-- The whole guard
`not body or not all(field in body ...) or not all(val ...)`, with Python
short-circuit evaluation: `.ok true` means the payload passes the
presence/non-empty check, `.ok false` means the 400 rejection fires,
`.error` means an exception escaped the guard. -/
def presenceCheck (body : Json) : Except PyErr Bool :=
  if !pyTruthy body then .ok false
  else
    match allFieldsIn body with
    | .error e => .error e
    | .ok false => .ok false
    | .ok true =>
      match allReqTruthy body with
      | .error e => .error e
      | .ok b => .ok b

/-- Dict item access `body[k]` for a key known to be present; `.null` in
the (unreachable) non-dict or missing-key cases. -/
def pyGet (body : Json) (k : String) : Json :=
  match body with
  | .obj fs => (jsonLookup fs k).getD .null
  | _ => .null

/-- Key membership test used for the optional `note` field. -/
def pyHasKey (body : Json) (k : String) : Bool :=
  match body with
  | .obj fs => (jsonLookup fs k).isSome
  | _ => false

/-- Whitespace characters stripped by Python `int(...)` (the common
ones). -/
def isSpaceChar (c : Char) : Bool :=
  c == ' ' || c == '\t' || c == '\n' || c == '\r'

/-- Value of a non-empty digit run, accumulator style; `none` on any
non-digit character. -/
def digitsVal : List Char → Nat → Option Nat
  | [], acc => some acc
  | c :: cs, acc =>
    if c.isDigit then digitsVal cs (acc * 10 + (c.toNat - 48)) else none

/-- Parse a non-empty run of decimal digits. -/
def parseDigits : List Char → Option Nat
  | [] => none
  | cs => digitsVal cs 0

/-- Model of the Python `int(...)` builtin on a string: optional
surrounding whitespace, an optional sign, then decimal digits
(underscore grouping is not modelled). -/
def pyIntOfString (s : String) : Option Int :=
  let cs := ((s.data.dropWhile isSpaceChar).reverse.dropWhile isSpaceChar).reverse
  match cs with
  | '-' :: rest => (parseDigits rest).map (fun m => -(m : Int))
  | '+' :: rest => (parseDigits rest).map (fun m => (m : Int))
  | rest => (parseDigits rest).map (fun m => (m : Int))

/-- Model of Python `int(...)` on a JSON value: numbers pass through,
booleans coerce, strings parse (else `ValueError`), any other type
raises `TypeError`. -/
def pyInt : Json → Except PyErr Int
  | .num n => .ok n
  | .bool b => .ok (if b then 1 else 0)
  | .str s =>
    match pyIntOfString s with
    | some n => .ok n
    | none => .error .valueError
  | _ => .error .typeError

/-- Model of `datetime.datetime.fromisoformat(v)` for an abstract library
parser `fromiso`: non-strings raise `TypeError`, unparseable strings
raise `ValueError`. -/
def pyFromIso (fromiso : String → Option Int) (v : Json) : Except PyErr Int :=
  match v with
  | .str s =>
    match fromiso s with
    | some t => .ok t
    | none => .error .valueError
  | _ => .error .typeError

/-- SQL `LIKE` matching, case-insensitive (`ILIKE`): `%` matches any
character sequence, `_` any single character, other characters match up
to case.  Fuel-based so that it is structurally recursive; `likeM`
supplies adequate fuel (the fuel never runs out when it starts at least
at `pattern length + text length + 1`). -/
def likeAux : Nat → List Char → List Char → Bool
  | 0, _, _ => false
  | _ + 1, [], t => t.isEmpty
  | fuel + 1, p :: ps, t =>
    if p = '%' then
      likeAux fuel ps t ||
        (match t with
         | [] => false
         | _ :: ts => likeAux fuel (p :: ps) ts)
    else if p = '_' then
      match t with
      | [] => false
      | _ :: ts => likeAux fuel ps ts
    else
      match t with
      | [] => false
      | c :: ts => (p.toLower == c.toLower) && likeAux fuel ps ts

/-- Case-insensitive SQL `LIKE` on strings, the semantics of the
`Person.name.ilike(pattern)` filter. -/
def likeM (pat txt : String) : Bool :=
  likeAux (pat.length + txt.length + 1) pat.data txt.data

/-- Text coercion applied when a JSON value is bound into a text column
or compared by the store; the claims only exercise the string case. -/
def asText : Json → String
  | .str s => s
  | .num n => toString n
  | .bool b => if b then "1" else "0"
  | _ => ""

/-- A `Person` row: `id`, `name`, `email` (the `version` column is
framework-managed and never read by the handlers). -/
structure Person where
  id : Nat
  name : String
  email : String
  deriving Repr, DecidableEq

/-- A `Reservation` row: `id`, `client_id`, `start_datetime` (abstract
ticks), `party_size`, `note` (kept as the raw JSON value assigned by the
handler). -/
structure Reservation where
  id : Nat
  clientId : Nat
  start : Int
  partySize : Int
  note : Json
  deriving Repr

/-- The relational store: the two tables, plus a flag modelling whether
store accesses succeed (`false` makes every access raise
`SQLAlchemyError`). -/
structure Store where
  persons : List Person
  reservations : List Reservation
  storeOk : Bool
  deriving Repr

/-- An HTTP response: status code and JSON body. -/
structure HttpResponse where
  status : Nat
  body : Json
  deriving Repr

/-- The outcome of running a view function: a response, or an exception
that escaped the handler into the framework. -/
inductive ViewResult where
  | resp (r : HttpResponse)
  | exc (e : PyErr)
  deriving Repr

/-- The generic JSON error envelope produced by the registered error
handlers in `create_app`. -/
def envelope (code : Int) (msg : String) : Json :=
  .obj [("error", .bool true), ("code", .num code), ("msg", .str msg)]

/-- Net effect of `abort(code, msg)` through the matching registered
error handler: the enveloped response. -/
def abortResp (code : Nat) (msg : String) : HttpResponse :=
  ⟨code, envelope code msg⟩

def reqMsg : String := "Required field must not be null or empty. Required: name, email, size, time"
def dateMsg : String := "Invalid date format, use: <date: YYYY-MM-DD>T<time: hh:mm>"
def futureMsg : String := "The reservation must be in the future."
def sizeFmtMsg : String := "Invalid party size format, it must be a valid number."
def sizeMinMsg : String := "Your party size must be of at least 1."
def storeErrMsg : String := "Unable to complete the request. Try again later."
def txErrMsg : String := "Unable to complete your transaction, try again later."
def notFoundMsg : String := "This reservation id does not exists."
def internalErrMsg : String := "The server encountered an internal error and was unable to complete your request."

/-- The success body of a created reservation. -/
def createdBody : Json :=
  .obj [("error", .bool false), ("msg", .str "Created"), ("code", .num 201)]

/-- The client lookup
`Person.query.filter(Person.name.ilike(name), Person.email.ilike(email)).first()`:
first stored person whose name and email both `ILIKE`-match the payload
patterns. -/
def findClient (st : Store) (namePat emailPat : String) : Option Person :=
  st.persons.find? (fun p => likeM namePat p.name && likeM emailPat p.email)

/-- The resolved client: the found person, or a fresh `Person` carrying
the payload name and email (its id modelling the value the store assigns
at commit). -/
def clientOf (st : Store) (namePat emailPat : String) : Person :=
  (findClient st namePat emailPat).getD ⟨st.persons.length + 1, namePat, emailPat⟩

/-- The person table after client resolution: unchanged on reuse, the
fresh person appended otherwise (cascade-save through the
relationship). -/
def clientPersons (st : Store) (namePat emailPat : String) : List Person :=
  match findClient st namePat emailPat with
  | some _ => st.persons
  | none => st.persons ++ [⟨st.persons.length + 1, namePat, emailPat⟩]

/-- The note stored with a new reservation:
`body['note'] if ('note' in body and body['note']) else ''`. -/
def noteOf (body : Json) : Json :=
  if pyHasKey body "note" && pyTruthy (pyGet body "note") then pyGet body "note"
  else .str ""

/-- The `POST /reservations` handler `create_reservation`, embedded from
`reservation/views/reservations.py`.  `fromiso` abstracts
`datetime.datetime.fromisoformat` and `now` the value of
`datetime.datetime.now()` at validation time.  Returns the view outcome
together with the store after the request. -/
def create_reservation (fromiso : String → Option Int) (now : Int)
    (st : Store) (body : Json) : ViewResult × Store :=
  match presenceCheck body with
  | .error e => (.exc e, st)
  | .ok false => (.resp (abortResp 400 reqMsg), st)
  | .ok true =>
    match pyFromIso fromiso (pyGet body "time") with
    | .error _ => (.resp (abortResp 400 dateMsg), st)
    | .ok start =>
      if start < now then (.resp (abortResp 400 futureMsg), st)
      else
        match pyInt (pyGet body "size") with
        | .error .valueError => (.resp (abortResp 400 sizeFmtMsg), st)
        | .error e => (.exc e, st)
        | .ok partySize =>
          if partySize < 1 then (.resp (abortResp 400 sizeMinMsg), st)
          else
            let namePat := asText (pyGet body "name")
            let emailPat := asText (pyGet body "email")
            let res : Reservation :=
              ⟨st.reservations.length + 1, (clientOf st namePat emailPat).id,
               start, partySize, noteOf body⟩
            if st.storeOk then
              (.resp ⟨201, createdBody⟩,
               ⟨clientPersons st namePat emailPat, st.reservations ++ [res], true⟩)
            else (.resp (abortResp 500 txErrMsg), st)

/-- The summary object produced for one reservation row by the list
endpoint. -/
def summaryJson (iso : Int → String) (r : Reservation) (p : Person) : Json :=
  .obj [("id", .num r.id), ("name", .str p.name),
        ("size", .num r.partySize), ("time", .str (iso r.start))]

/-- Left-to-right traversal of a list with a fallible per-element
function, modelling a Python list comprehension in which an element can
raise. -/
def optionMapList {α β : Type} (g : α → Option β) : List α → Option (List β)
  | [] => some []
  | x :: xs =>
    match g x, optionMapList g xs with
    | some y, some ys => some (y :: ys)
    | _, _ => none

/-- The `GET /reservations` handler `get_all_reservations`.  Resolving
`res.client` on a dangling foreign key is a `None` attribute access,
hence the `AttributeError` outcome. -/
def get_all_reservations (iso : Int → String) (st : Store) : ViewResult :=
  if !st.storeOk then .resp (abortResp 500 storeErrMsg)
  else
    match optionMapList (fun r =>
        (st.persons.find? (fun p => p.id == r.clientId)).map (summaryJson iso r))
        st.reservations with
    | none => .exc .attributeError
    | some xs => .resp ⟨200, .arr xs⟩

/-- The detail object produced for one reservation row by the get-by-id
endpoint. -/
def detailJson (iso : Int → String) (r : Reservation) (p : Person) : Json :=
  .obj [("id", .num r.id), ("name", .str p.name), ("email", .str p.email),
        ("size", .num r.partySize), ("time", .str (iso r.start)),
        ("note", r.note)]

/-- The `GET /reservations/<int:id>` handler `get_reservation_by_id`. -/
def get_reservation_by_id (iso : Int → String) (st : Store) (rid : Nat) : ViewResult :=
  if !st.storeOk then .resp (abortResp 500 storeErrMsg)
  else
    match st.reservations.find? (fun r => r.id == rid) with
    | none => .resp (abortResp 404 notFoundMsg)
    | some r =>
      match st.persons.find? (fun p => p.id == r.clientId) with
      | none => .exc .attributeError
      | some p => .resp ⟨200, detailJson iso r p⟩

/-- The `GET /version` handler registered in `create_app`; it touches no
store state (the `st` argument is ignored, making that explicit). -/
def version_view (_st : Store) : HttpResponse :=
  ⟨200, .obj [("service", .str "reservation"), ("version", .str "0.0.1")]⟩

/-- The framework-level conversion of a view outcome into a response: an
exception that escapes a handler is routed to the registered 500 error
handler, which produces the generic envelope. -/
def handleResult : ViewResult → HttpResponse
  | .resp r => r
  | .exc _ => abortResp 500 internalErrMsg

/-- Full application-level behaviour of `POST /reservations`: handler
plus framework error handling. -/
def appCreate (fromiso : String → Option Int) (now : Int)
    (st : Store) (body : Json) : HttpResponse × Store :=
  let out := create_reservation fromiso now st body
  (handleResult out.1, out.2)

/-- Full application-level behaviour of `GET /reservations`. -/
def appGetAll (iso : Int → String) (st : Store) : HttpResponse :=
  handleResult (get_all_reservations iso st)

/-- Full application-level behaviour of `GET /reservations/<id>`. -/
def appGetById (iso : Int → String) (st : Store) (rid : Nat) : HttpResponse :=
  handleResult (get_reservation_by_id iso st rid)

/-! ### Observation helpers and specification-side definitions -/

/-- Top-level keys of a JSON object. -/
def jsonKeys : Json → List String
  | .obj fs => fs.map Prod.fst
  | _ => []

/-- The `msg` string of a JSON error envelope, when the body has exactly
the envelope shape of `envelope`. -/
def msgOf : Json → Option String
  | .obj [("error", .bool true), ("code", .num _), ("msg", .str m)] => some m
  | _ => none

/-- Observation of a view outcome: its HTTP status (0 for an escaped
exception). -/
def respStatus : ViewResult → Nat
  | .resp r => r.status
  | .exc _ => 0

/-- Observation of a view outcome: its envelope message, if any. -/
def respMsg : ViewResult → Option String
  | .resp r => msgOf r.body
  | .exc _ => none

/-- Observation of a view outcome: the envelope message of an HTTP 400
response, `none` for any other outcome. -/
def msg400 : ViewResult → Option String
  | .resp r => if r.status = 400 then msgOf r.body else none
  | .exc _ => none

/-- A response is a well-formed error envelope: a body of the shape
produced by `envelope`, with `code` equal to the HTTP status. -/
def isErrorEnvelope (r : HttpResponse) : Bool :=
  match r.body with
  | .obj [("error", .bool true), ("code", .num c), ("msg", .str _)] => c == (r.status : Int)
  | _ => false

/-- A response is acceptable per the error-handling contract: either a
success status or a well-formed error envelope. -/
def goodResp (r : HttpResponse) : Prop :=
  r.status < 400 ∨ isErrorEnvelope r = true

/-- Modelled from the spec: validation step 1, "all required fields must
be present in the payload and none may be empty/null" — stated per
field, by lookup. -/
def specCheck1 (body : Json) : Bool :=
  match body with
  | .obj fs =>
    fieldsReq.all (fun k =>
      match jsonLookup fs k with
      | some v => pyTruthy v
      | none => false)
  | _ => false

/-- Modelled from the spec: the fail-fast validation cascade of §4.3,
returning the message of the earliest violated check (checks: required
fields, time parses, time not before now, size parses, size at least
1). -/
def firstFailMsg (fromiso : String → Option Int) (now : Int) (body : Json) : Option String :=
  if !specCheck1 body then some reqMsg
  else
    match pyFromIso fromiso (pyGet body "time") with
    | .error _ => some dateMsg
    | .ok t =>
      if t < now then some futureMsg
      else
        match pyInt (pyGet body "size") with
        | .error _ => some sizeFmtMsg
        | .ok sz => if sz < 1 then some sizeMinMsg else none

/-- Modelled from the spec: checks 1 to 3 of the validation cascade all
pass, so the `size` check is reached. -/
def reachesSizeCheck (fromiso : String → Option Int) (now : Int) (body : Json) : Bool :=
  specCheck1 body &&
    match pyFromIso fromiso (pyGet body "time") with
    | .error _ => false
    | .ok t => if t < now then false else true

/-- A pattern character list is wildcard-free: no `%` and no `_`. -/
def noWild (p : List Char) : Bool :=
  p.all (fun c => !(c == '%') && !(c == '_'))

/-- Case-insensitive character-for-character equality of character
lists. -/
def eqLower : List Char → List Char → Bool
  | [], [] => true
  | a :: as, b :: bs => (a.toLower == b.toLower) && eqLower as bs
  | _, _ => false

/-- Case-insensitive character-for-character equality of strings. -/
def lowerEq (a b : String) : Bool :=
  eqLower a.data b.data

/-! ### Concrete fixtures used by witnesses and counterexamples -/

/-- A concrete instance of the external ISO-8601 parser, mapping three
well-formed date-times to abstract ticks. -/
def f0 : String → Option Int := fun s =>
  if s == "2030-01-01T12:00" then some 2000
  else if s == "2020-01-01T12:00" then some 1000
  else if s == "2010-01-01T12:00" then some 500
  else none

/-- A concrete instance of the external ISO-8601 formatter. -/
def iso0 : Int → String := fun t => toString t

/-- The empty store. -/
def st0 : Store := ⟨[], [], true⟩

/-- A store holding one person. -/
def stA : Store := ⟨[⟨1, "Alice", "alice@example.com"⟩], [], true⟩

/-- A store whose accesses fail. -/
def stBad : Store := ⟨[], [], false⟩

/-- A store holding one person and one reservation. -/
def stW : Store :=
  ⟨[⟨1, "Batman", "batman@wayneindustries.com"⟩],
   [⟨1, 1, 2000, 4, .str "Take care of alfred!"⟩], true⟩

/-- A fully valid creation payload. -/
def goodBody : Json :=
  .obj [("name", .str "Batman"), ("email", .str "batman@wayneindustries.com"),
        ("size", .num 4), ("time", .str "2030-01-01T12:00"),
        ("note", .str "Take care of alfred!")]

/-- A payload whose time parses to exactly the current timestamp. -/
def nowBody : Json :=
  .obj [("name", .str "Batman"), ("email", .str "b@w.com"),
        ("size", .num 4), ("time", .str "2020-01-01T12:00")]

/-- A payload whose time parses to a past timestamp. -/
def pastBody : Json :=
  .obj [("name", .str "Batman"), ("email", .str "b@w.com"),
        ("size", .num 4), ("time", .str "2010-01-01T12:00")]

/-- A payload carrying the JSON number 0 as `size`. -/
def zeroBody : Json :=
  .obj [("name", .str "Batman"), ("email", .str "b@w.com"),
        ("size", .num 0), ("time", .str "2030-01-01T12:00")]

/-- A payload carrying the JSON string "0" as `size`. -/
def zeroStrBody : Json :=
  .obj [("name", .str "Batman"), ("email", .str "b@w.com"),
        ("size", .str "0"), ("time", .str "2030-01-01T12:00")]

/-- A payload carrying a JSON list as `size`. -/
def listSizeBody : Json :=
  .obj [("name", .str "Batman"), ("email", .str "b@w.com"),
        ("size", .arr [.num 1]), ("time", .str "2030-01-01T12:00")]

/-- A payload whose name and email are bare SQL wildcards. -/
def wildBody : Json :=
  .obj [("name", .str "%"), ("email", .str "%"),
        ("size", .num 2), ("time", .str "2030-01-01T12:00")]

/-- A payload matching the stored person of `stA` up to case. -/
def aliceBody : Json :=
  .obj [("name", .str "ALICE"), ("email", .str "Alice@Example.COM"),
        ("size", .num 2), ("time", .str "2030-01-01T12:00")]

/-- A payload with an unparseable date. -/
def badDateBody : Json :=
  .obj [("name", .str "Batman"), ("email", .str "b@w.com"),
        ("size", .num 0), ("time", .str "not-a-date")]

/-- A payload with an unparseable date and a JSON list as `size`: the
size check is never reached, the date check fails first. -/
def badDateListBody : Json :=
  .obj [("name", .str "Batman"), ("email", .str "b@w.com"),
        ("size", .arr [.num 1]), ("time", .str "not-a-date")]

/-! ### Helper lemmas -/

theorem find?_congr {α : Type} (l : List α) (p q : α → Bool) (h : ∀ x, p x = q x) :
    l.find? p = l.find? q := by
  induction l with
  | nil => rfl
  | cons a t ih =>
    simp only [List.find?, h a]
    cases q a <;> simp [ih]

theorem jsonLookup_mem (fs : List (String × Json)) (k : String) (v : Json)
    (h : jsonLookup fs k = some v) : (k, v) ∈ fs := by
  unfold jsonLookup at h
  cases hf : fs.find? (fun kv => kv.1 == k) with
  | none => rw [hf] at h; simp at h
  | some kv =>
    rw [hf] at h
    have hk := List.find?_some hf
    have hmem := List.mem_of_find?_eq_some hf
    have hk2 : kv.1 = k := eq_of_beq hk
    have hv : kv.2 = v := by simpa using h
    have hkv : kv = (k, v) := by
      obtain ⟨a, b⟩ := kv
      simp_all
    rwa [hkv] at hmem

theorem find?_key_of_nodup (fs : List (String × Json)) (kv : String × Json)
    (hnd : (fs.map Prod.fst).Nodup) (hm : kv ∈ fs) :
    fs.find? (fun x => x.1 == kv.1) = some kv := by
  induction fs with
  | nil => simp at hm
  | cons a t ih =>
    rcases List.mem_cons.mp hm with h | h
    · subst h
      simp [List.find?]
    · have hnd2 : (t.map Prod.fst).Nodup := (List.nodup_cons.mp hnd).2
      have hne : (a.1 == kv.1) = false := by
        cases hb : a.1 == kv.1 with
        | false => rfl
        | true =>
          exfalso
          have heq : a.1 = kv.1 := eq_of_beq hb
          have hmm : kv.1 ∈ t.map Prod.fst := List.mem_map_of_mem Prod.fst h
          rw [← heq] at hmm
          exact (List.nodup_cons.mp hnd).1 hmm
      simp only [List.find?, hne]
      exact ih hnd2 h

theorem optionMapList_eq_map {α β : Type} (g : α → Option β) (h : α → β) (l : List α)
    (H : ∀ x ∈ l, g x = some (h x)) : optionMapList g l = some (l.map h) := by
  induction l with
  | nil => rfl
  | cons a t ih =>
    have ha := H a (List.mem_cons_self a t)
    have ht := ih (fun x hx => H x (List.mem_cons_of_mem a hx))
    simp [optionMapList, ha, ht]

theorem likeAux_noWild (fuel : Nat) : ∀ p t : List Char,
    p.length + t.length < fuel → noWild p = true →
    likeAux fuel p t = eqLower p t := by
  induction fuel with
  | zero => intro p t hlen _; omega
  | succ n ih =>
    intro p t hlen hw
    cases p with
    | nil =>
      cases t <;> simp [likeAux, eqLower]
    | cons c ps =>
      have hcw : (!(c == '%') && !(c == '_')) = true := by
        have := List.all_eq_true.mp hw
        exact this c (List.mem_cons_self c ps)
      have hc1 : ¬ c = '%' := by
        intro hcon
        subst hcon
        simp at hcw
      have hc2 : ¬ c = '_' := by
        intro hcon
        subst hcon
        simp at hcw
      have hwps : noWild ps = true := by
        apply List.all_eq_true.mpr
        intro x hx
        exact List.all_eq_true.mp hw x (List.mem_cons_of_mem c hx)
      cases t with
      | nil =>
        simp [likeAux, hc1, hc2, eqLower]
      | cons d ts =>
        have hrec : likeAux n ps ts = eqLower ps ts := by
          apply ih
          · simp only [List.length_cons] at hlen
            omega
          · exact hwps
        simp [likeAux, hc1, hc2, eqLower, hrec]

theorem likeM_noWild (pat txt : String) (hw : noWild pat.data = true) :
    likeM pat txt = lowerEq pat txt := by
  unfold likeM lowerEq
  apply likeAux_noWild
  · have h1 : pat.length = pat.data.length := rfl
    have h2 : txt.length = txt.data.length := rfl
    omega
  · exact hw

theorem presenceCheck_obj_bool (fs : List (String × Json)) :
    presenceCheck (.obj fs) =
      .ok (pyTruthy (.obj fs) &&
           ((fieldsReq.all fun k => (jsonLookup fs k).isSome) &&
            (fs.all fun kv => !fieldsReq.contains kv.1 || pyTruthy kv.2))) := by
  unfold presenceCheck allFieldsIn allReqTruthy
  dsimp only
  generalize pyTruthy (.obj fs) = b1
  generalize (fieldsReq.all fun k => (jsonLookup fs k).isSome) = b2
  generalize (fs.all fun kv => !fieldsReq.contains kv.1 || pyTruthy kv.2) = b3
  cases b1 <;> cases b2 <;> cases b3 <;> simp

theorem specCheck1_obj (fs : List (String × Json))
    (hnd : (fs.map Prod.fst).Nodup) :
    specCheck1 (.obj fs) =
      (pyTruthy (.obj fs) &&
       ((fieldsReq.all fun k => (jsonLookup fs k).isSome) &&
        (fs.all fun kv => !fieldsReq.contains kv.1 || pyTruthy kv.2))) := by
  cases hsc : specCheck1 (.obj fs) with
  | true =>
    have hall : ∀ k ∈ fieldsReq,
        (match jsonLookup fs k with
         | some v => pyTruthy v
         | none => false) = true := by
      intro k hk
      exact List.all_eq_true.mp hsc k hk
    have hlk : ∀ k ∈ fieldsReq, ∃ v, jsonLookup fs k = some v ∧ pyTruthy v = true := by
      intro k hk
      have := hall k hk
      cases hl : jsonLookup fs k with
      | none => rw [hl] at this; simp at this
      | some v => rw [hl] at this; exact ⟨v, rfl, this⟩
    have h1 : pyTruthy (.obj fs) = true := by
      obtain ⟨v, hv, _⟩ := hlk "name" (by simp [fieldsReq])
      cases fs with
      | nil => simp [jsonLookup] at hv
      | cons a t => simp [pyTruthy]
    have h2 : (fieldsReq.all fun k => (jsonLookup fs k).isSome) = true := by
      apply List.all_eq_true.mpr
      intro k hk
      obtain ⟨v, hv, _⟩ := hlk k hk
      simp [hv]
    have h3 : (fs.all fun kv => !fieldsReq.contains kv.1 || pyTruthy kv.2) = true := by
      apply List.all_eq_true.mpr
      intro kv hkv
      cases hcont : fieldsReq.contains kv.1 with
      | false => simp
      | true =>
        have hkmem : kv.1 ∈ fieldsReq := List.elem_iff.mp hcont
        obtain ⟨v, hv, htv⟩ := hlk kv.1 hkmem
        have hfind := find?_key_of_nodup fs kv hnd hkv
        have hlook : jsonLookup fs kv.1 = some kv.2 := by
          unfold jsonLookup
          rw [hfind]
          rfl
        rw [hlook] at hv
        have : kv.2 = v := by simpa using hv
        rw [this]
        simp [htv]
    simp only [h1, h2, h3, Bool.and_true, Bool.true_and]
  | false =>
    cases h1 : pyTruthy (.obj fs) with
    | false => simp
    | true =>
      cases h2 : fieldsReq.all fun k => (jsonLookup fs k).isSome with
      | false => simp
      | true =>
        cases h3 : fs.all fun kv => !fieldsReq.contains kv.1 || pyTruthy kv.2 with
        | false => simp
        | true =>
          exfalso
          have : specCheck1 (.obj fs) = true := by
            apply List.all_eq_true.mpr
            intro k hk
            have hs : (jsonLookup fs k).isSome = true := List.all_eq_true.mp h2 k hk
            cases hl : jsonLookup fs k with
            | none => rw [hl] at hs; simp at hs
            | some v =>
              have hmem : (k, v) ∈ fs := jsonLookup_mem fs k v hl
              have hitem := List.all_eq_true.mp h3 (k, v) hmem
              have hcont : fieldsReq.contains k = true := List.elem_iff.mpr hk
              simp only [hcont, Bool.not_true, Bool.false_or] at hitem
              simpa using hitem
          rw [this] at hsc
          exact Bool.noConfusion hsc

theorem presenceCheck_obj (fs : List (String × Json))
    (hnd : (fs.map Prod.fst).Nodup) :
    presenceCheck (.obj fs) = .ok (specCheck1 (.obj fs)) := by
  rw [presenceCheck_obj_bool, specCheck1_obj fs hnd]

theorem create_presence_fail (f : String → Option Int) (n : Int) (st : Store) (body : Json)
    (h : presenceCheck body = .ok false) :
    create_reservation f n st body = (.resp (abortResp 400 reqMsg), st) := by
  unfold create_reservation
  rw [h]

theorem create_presence_exc (f : String → Option Int) (n : Int) (st : Store) (body : Json)
    (e : PyErr) (h : presenceCheck body = .error e) :
    create_reservation f n st body = (.exc e, st) := by
  unfold create_reservation
  rw [h]

theorem create_date_fail (f : String → Option Int) (n : Int) (st : Store) (body : Json)
    (e : PyErr) (h : presenceCheck body = .ok true)
    (ht : pyFromIso f (pyGet body "time") = .error e) :
    create_reservation f n st body = (.resp (abortResp 400 dateMsg), st) := by
  unfold create_reservation
  rw [h, ht]

theorem create_future_fail (f : String → Option Int) (n : Int) (st : Store) (body : Json)
    (t : Int) (h : presenceCheck body = .ok true)
    (ht : pyFromIso f (pyGet body "time") = .ok t) (hlt : t < n) :
    create_reservation f n st body = (.resp (abortResp 400 futureMsg), st) := by
  unfold create_reservation
  rw [h]; dsimp only
  rw [ht]; dsimp only
  rw [if_pos hlt]

theorem create_sizefmt_fail (f : String → Option Int) (n : Int) (st : Store) (body : Json)
    (t : Int) (h : presenceCheck body = .ok true)
    (ht : pyFromIso f (pyGet body "time") = .ok t) (hge : ¬ t < n)
    (hs : pyInt (pyGet body "size") = .error .valueError) :
    create_reservation f n st body = (.resp (abortResp 400 sizeFmtMsg), st) := by
  unfold create_reservation
  rw [h]; dsimp only
  rw [ht]; dsimp only
  rw [if_neg hge, hs]

theorem create_size_exc (f : String → Option Int) (n : Int) (st : Store) (body : Json)
    (t : Int) (e : PyErr) (h : presenceCheck body = .ok true)
    (ht : pyFromIso f (pyGet body "time") = .ok t) (hge : ¬ t < n)
    (hs : pyInt (pyGet body "size") = .error e) (hne : e ≠ .valueError) :
    create_reservation f n st body = (.exc e, st) := by
  unfold create_reservation
  rw [h]; dsimp only
  rw [ht]; dsimp only
  rw [if_neg hge, hs]
  cases e with
  | valueError => exact absurd rfl hne
  | typeError => rfl
  | attributeError => rfl

theorem create_sizemin_fail (f : String → Option Int) (n : Int) (st : Store) (body : Json)
    (t sz : Int) (h : presenceCheck body = .ok true)
    (ht : pyFromIso f (pyGet body "time") = .ok t) (hge : ¬ t < n)
    (hs : pyInt (pyGet body "size") = .ok sz) (hlt : sz < 1) :
    create_reservation f n st body = (.resp (abortResp 400 sizeMinMsg), st) := by
  unfold create_reservation
  rw [h]; dsimp only
  rw [ht]; dsimp only
  rw [if_neg hge, hs]; dsimp only
  rw [if_pos hlt]

theorem create_success_eq (f : String → Option Int) (n : Int) (st : Store) (body : Json)
    (t sz : Int) (h : presenceCheck body = .ok true)
    (ht : pyFromIso f (pyGet body "time") = .ok t) (hge : ¬ t < n)
    (hs : pyInt (pyGet body "size") = .ok sz) (hmin : ¬ sz < 1)
    (hok : st.storeOk = true) :
    create_reservation f n st body =
      (.resp ⟨201, createdBody⟩,
       ⟨clientPersons st (asText (pyGet body "name")) (asText (pyGet body "email")),
        st.reservations ++
          [⟨st.reservations.length + 1,
            (clientOf st (asText (pyGet body "name")) (asText (pyGet body "email"))).id,
            t, sz, noteOf body⟩],
        true⟩) := by
  unfold create_reservation
  rw [h]; dsimp only
  rw [ht]; dsimp only
  rw [if_neg hge, hs]; dsimp only
  rw [if_neg hmin, if_pos hok]

theorem create_store_fail (f : String → Option Int) (n : Int) (st : Store) (body : Json)
    (t sz : Int) (h : presenceCheck body = .ok true)
    (ht : pyFromIso f (pyGet body "time") = .ok t) (hge : ¬ t < n)
    (hs : pyInt (pyGet body "size") = .ok sz) (hmin : ¬ sz < 1)
    (hbad : st.storeOk = false) :
    create_reservation f n st body = (.resp (abortResp 500 txErrMsg), st) := by
  unfold create_reservation
  rw [h]; dsimp only
  rw [ht]; dsimp only
  rw [if_neg hge, hs]; dsimp only
  rw [if_neg hmin, if_neg (by simp [hbad])]

theorem pyInt_no_attr (v : Json) : pyInt v ≠ .error .attributeError := by
  cases v <;> simp [pyInt]
  case str s => cases pyIntOfString s <;> simp

theorem goodResp_abort (c : Nat) (m : String) : goodResp (abortResp c m) := by
  right
  simp [isErrorEnvelope, abortResp, envelope]

/-! ### The claims -/

/-- C9: `GET /version` returns HTTP 200 with a JSON body containing
exactly the keys `service` and `version`, for every state of the data
store, including when the store is unreachable (the handler performs no
store access). -/
theorem version_always_ok (st : Store) :
    version_view st =
      ⟨200, .obj [("service", .str "reservation"), ("version", .str "0.0.1")]⟩ ∧
    jsonKeys (version_view st).body = ["service", "version"] ∧
    (version_view st).status = 200 :=
  ⟨rfl, rfl, rfl⟩

/-- C10: a create payload in which some required field is present but
bound to a falsy JSON value is rejected at the first validation step
with HTTP 400 and the required-field message, the store untouched and no
later validation step reached. -/
theorem falsy_required_field_rejected (f : String → Option Int) (n : Int) (st : Store)
    (fs : List (String × Json)) (k : String) (v : Json)
    (hk : k ∈ fieldsReq) (hv : jsonLookup fs k = some v)
    (hfalsy : pyTruthy v = false) :
    create_reservation f n st (.obj fs) = (.resp (abortResp 400 reqMsg), st) := by
  apply create_presence_fail
  rw [presenceCheck_obj_bool]
  have hmem : (k, v) ∈ fs := jsonLookup_mem fs k v hv
  have hc : fieldsReq.contains k = true := List.elem_iff.mpr hk
  have h3 : (fs.all fun kv => !fieldsReq.contains kv.1 || pyTruthy kv.2) = false := by
    apply List.all_eq_false.mpr
    exact ⟨(k, v), hmem, by simp [hc, hfalsy, hk]⟩
  rw [h3]
  simp

/-- Witness for C10: the JSON number 0 as `size` draws the
required-field message (and not the party-size message). -/
theorem falsy_required_field_rejected_witness :
    create_reservation f0 1000 st0 zeroBody = (.resp (abortResp 400 reqMsg), st0) :=
  falsy_required_field_rejected f0 1000 st0
    [("name", .str "Batman"), ("email", .str "b@w.com"),
     ("size", .num 0), ("time", .str "2030-01-01T12:00")]
    "size" (.num 0) (by decide) rfl rfl

/-- C6: a payload passing all five validation checks persists, when the
store commit succeeds, a reservation holding the parsed time, the parsed
party size, the note (the payload note when present and truthy, else the
empty string) and the resolved client, and answers HTTP 201 with exactly
the created-body envelope. -/
theorem create_success_persists (f : String → Option Int) (n : Int) (st : Store)
    (body : Json) (t sz : Int)
    (hpres : presenceCheck body = .ok true)
    (ht : pyFromIso f (pyGet body "time") = .ok t)
    (hfut : ¬ t < n)
    (hs : pyInt (pyGet body "size") = .ok sz)
    (hmin : ¬ sz < 1)
    (hok : st.storeOk = true) :
    create_reservation f n st body =
      (.resp ⟨201, createdBody⟩,
       ⟨clientPersons st (asText (pyGet body "name")) (asText (pyGet body "email")),
        st.reservations ++
          [⟨st.reservations.length + 1,
            (clientOf st (asText (pyGet body "name")) (asText (pyGet body "email"))).id,
            t, sz, noteOf body⟩],
        true⟩) :=
  create_success_eq f n st body t sz hpres ht hfut hs hmin hok

/-- Witness for C6: the Batman payload against the empty store creates
the person and the reservation and answers 201 Created. -/
theorem create_success_persists_witness :
    create_reservation f0 1000 st0 goodBody =
      (.resp ⟨201, createdBody⟩,
       ⟨[⟨1, "Batman", "batman@wayneindustries.com"⟩],
        [⟨1, 1, 2000, 4, .str "Take care of alfred!"⟩], true⟩) := by
  have h := create_success_persists f0 1000 st0 goodBody 2000 4 rfl rfl
    (by decide) rfl (by decide) rfl
  rw [h]
  rfl

/-- C2 (amended): a payload that passes the presence check and the time
checks and whose `size` parses to an integer below 1 is rejected with
HTTP 400 and the party-size message; the JSON number 0 never reaches
this check (see the counterexample), only representations that are
truthy, such as the string "0" or negative numbers, do. -/
theorem size_below_one_rejected (f : String → Option Int) (n : Int) (st : Store)
    (body : Json) (t sz : Int)
    (hpres : presenceCheck body = .ok true)
    (ht : pyFromIso f (pyGet body "time") = .ok t)
    (hfut : ¬ t < n)
    (hs : pyInt (pyGet body "size") = .ok sz)
    (hlt : sz < 1) :
    create_reservation f n st body = (.resp (abortResp 400 sizeMinMsg), st) :=
  create_sizemin_fail f n st body t sz hpres ht hfut hs hlt

/-- Counterexample for C2: the JSON number 0 as `size` is falsy, so it
is rejected by the presence check with the required-field message and
never receives the party-size message. -/
theorem size_zero_number_cex :
    create_reservation f0 1000 st0 zeroBody = (.resp (abortResp 400 reqMsg), st0) ∧
    (create_reservation f0 1000 st0 zeroBody).1 ≠ .resp (abortResp 400 sizeMinMsg) := by
  refine ⟨rfl, fun h => ?_⟩
  exact absurd (congrArg respMsg h) (by decide)

/-- Witness for C2: the string "0" as `size` passes the presence check
and draws the party-size message. -/
theorem size_below_one_rejected_witness :
    create_reservation f0 1000 st0 zeroStrBody = (.resp (abortResp 400 sizeMinMsg), st0) :=
  size_below_one_rejected f0 1000 st0 zeroStrBody 2000 0 rfl rfl (by decide) rfl
    (by decide)

/-- C1 (amended): a payload passing the presence check whose `time`
parses is rejected with HTTP 400 and the future-date message exactly
when the parsed time is strictly before the current timestamp; a time
equal to now is accepted. -/
theorem future_check_iff_before_now (f : String → Option Int) (n : Int) (st : Store)
    (body : Json) (t : Int)
    (hpres : presenceCheck body = .ok true)
    (ht : pyFromIso f (pyGet body "time") = .ok t) :
    (create_reservation f n st body).1 = .resp (abortResp 400 futureMsg) ↔ t < n := by
  constructor
  · intro h
    by_contra hge
    cases hs : pyInt (pyGet body "size") with
    | error e =>
      cases e with
      | valueError =>
        rw [create_sizefmt_fail f n st body t hpres ht hge hs] at h
        dsimp only at h
        exact absurd (congrArg respMsg h) (by decide)
      | typeError =>
        rw [create_size_exc f n st body t _ hpres ht hge hs (by decide)] at h
        dsimp only at h
        exact ViewResult.noConfusion h
      | attributeError => exact pyInt_no_attr _ hs
    | ok sz =>
      by_cases hlt : sz < 1
      · rw [create_sizemin_fail f n st body t sz hpres ht hge hs hlt] at h
        dsimp only at h
        exact absurd (congrArg respMsg h) (by decide)
      · cases hok : st.storeOk with
        | true =>
          rw [create_success_eq f n st body t sz hpres ht hge hs hlt hok] at h
          dsimp only at h
          exact absurd (congrArg respStatus h) (by decide)
        | false =>
          rw [create_store_fail f n st body t sz hpres ht hge hs hlt hok] at h
          dsimp only at h
          exact absurd (congrArg respStatus h) (by decide)
  · intro hlt
    rw [create_future_fail f n st body t hpres ht hlt]

/-- Counterexample for C1: a payload whose time parses to exactly the
current timestamp is accepted (201 Created), not rejected with the
future-date message. -/
theorem future_check_now_accepted_cex :
    f0 "2020-01-01T12:00" = some 1000 ∧
    (create_reservation f0 1000 st0 nowBody).1 = .resp ⟨201, createdBody⟩ ∧
    (create_reservation f0 1000 st0 nowBody).1 ≠ .resp (abortResp 400 futureMsg) := by
  refine ⟨rfl, rfl, fun h => ?_⟩
  exact absurd (congrArg respStatus h) (by decide)

/-- Witness for C1: a payload whose time parses strictly before now is
rejected with the future-date message. -/
theorem future_check_witness :
    (create_reservation f0 1000 st0 pastBody).1 = .resp (abortResp 400 futureMsg) :=
  (future_check_iff_before_now f0 1000 st0 pastBody 500 rfl rfl).mpr (by decide)

/-- C7: get-reservation-by-id answers HTTP 404 with the not-found
message exactly when no stored reservation carries the requested id;
when one does, it answers HTTP 200 with exactly the detail fields id,
name, email, size, time (formatted by the ISO formatter) and note, name
and email taken from the linked person; a store access error instead
yields HTTP 500. -/
theorem get_by_id_spec (iso : Int → String) (st : Store) (rid : Nat) :
    (st.storeOk = false →
      get_reservation_by_id iso st rid = .resp (abortResp 500 storeErrMsg)) ∧
    (st.storeOk = true →
      ((get_reservation_by_id iso st rid = .resp (abortResp 404 notFoundMsg) ↔
         st.reservations.find? (fun r => r.id == rid) = none) ∧
       (∀ r p, st.reservations.find? (fun r => r.id == rid) = some r →
         st.persons.find? (fun q => q.id == r.clientId) = some p →
         get_reservation_by_id iso st rid = .resp ⟨200, detailJson iso r p⟩))) := by
  refine ⟨fun hbad => ?_, fun hok => ⟨⟨fun h => ?_, fun hnone => ?_⟩, fun r p hr hp => ?_⟩⟩
  · simp [get_reservation_by_id, hbad]
  · cases hf : st.reservations.find? (fun r => r.id == rid) with
    | none => rfl
    | some r =>
      exfalso
      cases hp : st.persons.find? (fun q => q.id == r.clientId) with
      | none =>
        rw [show get_reservation_by_id iso st rid = .exc .attributeError by
          simp [get_reservation_by_id, hok, hf, hp]] at h
        exact ViewResult.noConfusion h
      | some p =>
        rw [show get_reservation_by_id iso st rid = .resp ⟨200, detailJson iso r p⟩ by
          simp [get_reservation_by_id, hok, hf, hp]] at h
        have := congrArg respStatus h
        simp [respStatus, abortResp] at this
  · simp [get_reservation_by_id, hok, hnone]
  · simp [get_reservation_by_id, hok, hr, hp]

/-- Witness for C7: the populated store answers the stored detail for id
1, the not-found envelope for id 9, and the failing store answers the
500 envelope. -/
theorem get_by_id_spec_witness :
    get_reservation_by_id iso0 stW 1 =
      .resp ⟨200, detailJson iso0 ⟨1, 1, 2000, 4, .str "Take care of alfred!"⟩
        ⟨1, "Batman", "batman@wayneindustries.com"⟩⟩ ∧
    get_reservation_by_id iso0 stW 9 = .resp (abortResp 404 notFoundMsg) ∧
    get_reservation_by_id iso0 stBad 1 = .resp (abortResp 500 storeErrMsg) :=
  ⟨((get_by_id_spec iso0 stW 1).2 rfl).2 _ _ rfl rfl,
   (((get_by_id_spec iso0 stW 9).2 rfl).1).mpr rfl,
   (get_by_id_spec iso0 stBad 1).1 rfl⟩

/-- C8: list-reservations answers HTTP 200 with, for every stored
reservation in store order, exactly the summary fields id, name (from
the linked person), size and time (formatted by the ISO formatter), and
no email or note; a failing store query yields the HTTP 500 envelope
instead of a crash. -/
theorem get_all_spec (iso : Int → String) (st : Store) (cl : Reservation → Person) :
    (st.storeOk = false →
      get_all_reservations iso st = .resp (abortResp 500 storeErrMsg)) ∧
    (st.storeOk = true →
      (∀ r ∈ st.reservations,
        st.persons.find? (fun p => p.id == r.clientId) = some (cl r)) →
      get_all_reservations iso st =
        .resp ⟨200, .arr (st.reservations.map (fun r => summaryJson iso r (cl r)))⟩) := by
  constructor
  · intro hbad
    simp [get_all_reservations, hbad]
  · intro hok hcl
    have hm := optionMapList_eq_map
      (fun r => (st.persons.find? (fun p => p.id == r.clientId)).map (summaryJson iso r))
      (fun r => summaryJson iso r (cl r)) st.reservations
      (fun r hr => by dsimp only; rw [hcl r hr]; rfl)
    simp [get_all_reservations, hok, hm]

/-- Witness for C8: the populated store lists exactly one summary; the
failing store answers the 500 envelope. -/
theorem get_all_spec_witness :
    get_all_reservations iso0 stW =
      .resp ⟨200, .arr [summaryJson iso0 ⟨1, 1, 2000, 4, .str "Take care of alfred!"⟩
        ⟨1, "Batman", "batman@wayneindustries.com"⟩]⟩ ∧
    get_all_reservations iso0 stBad = .resp (abortResp 500 storeErrMsg) := by
  constructor
  · have h := (get_all_spec iso0 stW
      (fun _ => ⟨1, "Batman", "batman@wayneindustries.com"⟩)).2 rfl
      (by
        intro r hr
        have : r = ⟨1, 1, 2000, 4, .str "Take care of alfred!"⟩ := by
          simpa [stW] using hr
        rw [this]
        rfl)
    exact h
  · exact (get_all_spec iso0 stBad (fun _ => ⟨1, "", ""⟩)).1 rfl

/-- C3 (amended): client resolution matches existing persons with the
payload name and email interpreted as case-insensitive SQL LIKE
patterns (`%` any sequence, `_` any single character): the first person
whose name and email both match is reused, otherwise a new person
carrying exactly the given name and email is created and persisted with
the reservation; for wildcard-free name and email the match coincides
with case-insensitive character-for-character equality, so two creations
with identical wildcard-free name/email share one person. -/
theorem client_resolution_ilike (f : String → Option Int) (n : Int) (st : Store)
    (body : Json) (t sz : Int) (nm em : String)
    (hpres : presenceCheck body = .ok true)
    (ht : pyFromIso f (pyGet body "time") = .ok t)
    (hfut : ¬ t < n)
    (hs : pyInt (pyGet body "size") = .ok sz)
    (hmin : ¬ sz < 1)
    (hok : st.storeOk = true)
    (hname : pyGet body "name" = .str nm)
    (hemail : pyGet body "email" = .str em) :
    (∀ p, findClient st nm em = some p →
       (create_reservation f n st body).2.persons = st.persons ∧
       (create_reservation f n st body).2.reservations =
         st.reservations ++ [⟨st.reservations.length + 1, p.id, t, sz, noteOf body⟩]) ∧
    (findClient st nm em = none →
       (create_reservation f n st body).2.persons =
         st.persons ++ [⟨st.persons.length + 1, nm, em⟩] ∧
       (create_reservation f n st body).2.reservations =
         st.reservations ++
           [⟨st.reservations.length + 1, st.persons.length + 1, t, sz, noteOf body⟩]) ∧
    (noWild nm.data = true → noWild em.data = true →
       findClient st nm em =
         st.persons.find? (fun p => lowerEq nm p.name && lowerEq em p.email)) := by
  have hrun := create_success_eq f n st body t sz hpres ht hfut hs hmin hok
  rw [hname, hemail] at hrun
  simp only [asText] at hrun
  refine ⟨fun p hp => ?_, fun hp => ?_, fun hw1 hw2 => ?_⟩
  · rw [hrun]
    constructor
    · show clientPersons st nm em = st.persons
      unfold clientPersons
      rw [hp]
    · show st.reservations ++ _ = st.reservations ++ _
      unfold clientOf
      rw [hp]
      rfl
  · rw [hrun]
    constructor
    · show clientPersons st nm em = _
      unfold clientPersons
      rw [hp]
    · show st.reservations ++ _ = st.reservations ++ _
      unfold clientOf
      rw [hp]
      rfl
  · unfold findClient
    apply find?_congr
    intro p
    rw [likeM_noWild nm p.name hw1, likeM_noWild em p.email hw2]

/-- Counterexample for C3: against a store holding Alice, the payload
name and email "%" (not a case-insensitive character-for-character match
of any row) reuses Alice instead of creating a new person, because the
lookup is SQL ILIKE pattern matching. -/
theorem client_resolution_wildcard_cex :
    (create_reservation f0 1000 stA wildBody).2.persons =
      [⟨1, "Alice", "alice@example.com"⟩] ∧
    (create_reservation f0 1000 stA wildBody).2.reservations.map
      (fun r => r.clientId) = [1] ∧
    lowerEq "%" "Alice" = false ∧
    lowerEq "%" "alice@example.com" = false :=
  ⟨rfl, rfl, rfl, rfl⟩

/-- Witness for C3: a payload differing from the stored Alice row only
in case reuses that row (same person id on the new reservation), and the
wildcard-free match agrees with case-insensitive equality. -/
theorem client_resolution_witness :
    (create_reservation f0 1000 stA aliceBody).2.persons =
      [⟨1, "Alice", "alice@example.com"⟩] ∧
    (create_reservation f0 1000 stA aliceBody).2.reservations =
      [⟨1, 1, 2000, 2, .str ""⟩] := by
  have h := client_resolution_ilike f0 1000 stA aliceBody 2000 2
    "ALICE" "Alice@Example.COM" rfl rfl (by decide) rfl (by decide) rfl rfl rfl
  have h1 := h.1 ⟨1, "Alice", "alice@example.com"⟩ rfl
  refine ⟨h1.1, ?_⟩
  rw [h1.2]
  rfl

/-- C4: for every request to any of the four endpoints, the response is
either a success (status below 400) or the well-formed JSON error
envelope with the HTTP status equal to the `code` field; in particular
an exception escaping a handler (for instance a create payload whose
`size` is a non-numeric, non-string JSON value) is converted by the
registered 500 error handler into such an envelope rather than leaking
to the caller. -/
theorem all_failures_enveloped (f : String → Option Int) (n : Int) (st : Store)
    (body : Json) (iso : Int → String) (rid : Nat) :
    goodResp (appCreate f n st body).1 ∧
    goodResp (appGetAll iso st) ∧
    goodResp (appGetById iso st rid) ∧
    goodResp (version_view st) := by
  refine ⟨?_, ?_, ?_, Or.inl (by simp [version_view])⟩
  · unfold appCreate
    dsimp only
    cases hp : presenceCheck body with
    | error e =>
      rw [create_presence_exc f n st body e hp]
      exact goodResp_abort 500 internalErrMsg
    | ok b =>
      cases b with
      | false =>
        rw [create_presence_fail f n st body hp]
        exact goodResp_abort 400 reqMsg
      | true =>
        cases htm : pyFromIso f (pyGet body "time") with
        | error e =>
          rw [create_date_fail f n st body e hp htm]
          exact goodResp_abort 400 dateMsg
        | ok t =>
          by_cases hlt : t < n
          · rw [create_future_fail f n st body t hp htm hlt]
            exact goodResp_abort 400 futureMsg
          · cases hs : pyInt (pyGet body "size") with
            | error e =>
              by_cases hve : e = .valueError
              · subst hve
                rw [create_sizefmt_fail f n st body t hp htm hlt hs]
                exact goodResp_abort 400 sizeFmtMsg
              · rw [create_size_exc f n st body t e hp htm hlt hs hve]
                exact goodResp_abort 500 internalErrMsg
            | ok sz =>
              by_cases hmin : sz < 1
              · rw [create_sizemin_fail f n st body t sz hp htm hlt hs hmin]
                exact goodResp_abort 400 sizeMinMsg
              · cases hok : st.storeOk with
                | true =>
                  rw [create_success_eq f n st body t sz hp htm hlt hs hmin hok]
                  exact Or.inl (by simp [handleResult])
                | false =>
                  rw [create_store_fail f n st body t sz hp htm hlt hs hmin hok]
                  exact goodResp_abort 500 txErrMsg
  · unfold appGetAll
    cases hok : st.storeOk with
    | false =>
      rw [show get_all_reservations iso st = .resp (abortResp 500 storeErrMsg) by
        simp [get_all_reservations, hok]]
      exact goodResp_abort 500 storeErrMsg
    | true =>
      cases hm : optionMapList (fun r =>
          (st.persons.find? (fun p => p.id == r.clientId)).map (summaryJson iso r))
          st.reservations with
      | none =>
        rw [show get_all_reservations iso st = .exc .attributeError by
          simp [get_all_reservations, hok, hm]]
        exact goodResp_abort 500 internalErrMsg
      | some xs =>
        rw [show get_all_reservations iso st = .resp ⟨200, .arr xs⟩ by
          simp [get_all_reservations, hok, hm]]
        exact Or.inl (by simp [handleResult])
  · unfold appGetById
    cases hok : st.storeOk with
    | false =>
      rw [show get_reservation_by_id iso st rid = .resp (abortResp 500 storeErrMsg) by
        simp [get_reservation_by_id, hok]]
      exact goodResp_abort 500 storeErrMsg
    | true =>
      cases hf : st.reservations.find? (fun r => r.id == rid) with
      | none =>
        rw [show get_reservation_by_id iso st rid = .resp (abortResp 404 notFoundMsg) by
          simp [get_reservation_by_id, hok, hf]]
        exact goodResp_abort 404 notFoundMsg
      | some r =>
        cases hq : st.persons.find? (fun q => q.id == r.clientId) with
        | none =>
          rw [show get_reservation_by_id iso st rid = .exc .attributeError by
            simp [get_reservation_by_id, hok, hf, hq]]
          exact goodResp_abort 500 internalErrMsg
        | some p =>
          rw [show get_reservation_by_id iso st rid = .resp ⟨200, detailJson iso r p⟩ by
            simp [get_reservation_by_id, hok, hf, hq]]
          exact Or.inl (by simp [handleResult])

/-- C5 (amended): validation is fail-fast in the order (1) required
fields present and non-empty, (2) time parses, (3) parsed time not
strictly before now (the boundary corrected as in C1), (4) `size`
parses as an integer, (5) parsed size at least 1: for every JSON-object
payload, unless the size check is actually reached (checks 1 to 3 pass)
with a `size` value of a type that Python `int(...)` rejects with
`TypeError`, the request draws a 400 response exactly when some check
fails, with the message of the earliest violated check; in the excluded
situation (checks 1 to 3 pass, `size` a list, object or null) the code
instead raises an uncaught `TypeError`, surfaced as the HTTP 500
envelope, never as the party-size-format 400. -/
theorem validation_fail_fast (f : String → Option Int) (n : Int) (st : Store)
    (fs : List (String × Json)) (hnd : (fs.map Prod.fst).Nodup) :
    ((reachesSizeCheck f n (.obj fs) = true →
        pyInt (pyGet (.obj fs) "size") ≠ .error .typeError) →
       msg400 (create_reservation f n st (.obj fs)).1 = firstFailMsg f n (.obj fs)) ∧
    (∀ t, presenceCheck (.obj fs) = .ok true →
       pyFromIso f (pyGet (.obj fs) "time") = .ok t → ¬ t < n →
       pyInt (pyGet (.obj fs) "size") = .error .typeError →
       (appCreate f n st (.obj fs)).1 = abortResp 500 internalErrMsg) := by
  have hpc := presenceCheck_obj fs hnd
  constructor
  · intro hsz
    cases hsc : specCheck1 (.obj fs) with
    | false =>
      rw [hsc] at hpc
      rw [create_presence_fail f n st (.obj fs) hpc]
      simp [msg400, msgOf, abortResp, envelope, firstFailMsg, hsc]
    | true =>
      rw [hsc] at hpc
      cases htm : pyFromIso f (pyGet (.obj fs) "time") with
      | error e =>
        rw [create_date_fail f n st (.obj fs) e hpc htm]
        simp [msg400, msgOf, abortResp, envelope, firstFailMsg, hsc, htm]
      | ok t =>
        by_cases hlt : t < n
        · rw [create_future_fail f n st (.obj fs) t hpc htm hlt]
          simp [msg400, msgOf, abortResp, envelope, firstFailMsg, hsc, htm, hlt]
        · cases hs : pyInt (pyGet (.obj fs) "size") with
          | error e =>
            cases e with
            | valueError =>
              rw [create_sizefmt_fail f n st (.obj fs) t hpc htm hlt hs]
              simp [msg400, msgOf, abortResp, envelope, firstFailMsg, hsc, htm, hlt, hs]
            | typeError =>
              have hreach : reachesSizeCheck f n (.obj fs) = true := by
                unfold reachesSizeCheck
                rw [hsc, htm]
                simp [hlt]
              exact absurd hs (hsz hreach)
            | attributeError => exact absurd hs (pyInt_no_attr _)
          | ok sz =>
            by_cases hmin : sz < 1
            · rw [create_sizemin_fail f n st (.obj fs) t sz hpc htm hlt hs hmin]
              simp [msg400, msgOf, abortResp, envelope, firstFailMsg, hsc, htm, hlt, hs,
                hmin]
            · cases hok : st.storeOk with
              | true =>
                rw [create_success_eq f n st (.obj fs) t sz hpc htm hlt hs hmin hok]
                simp [msg400, firstFailMsg, hsc, htm, hlt, hs, hmin]
              | false =>
                rw [create_store_fail f n st (.obj fs) t sz hpc htm hlt hs hmin hok]
                simp [msg400, firstFailMsg, abortResp, hsc, htm, hlt, hs, hmin]
  · intro t hpres htm hge hs
    unfold appCreate
    dsimp only
    rw [create_size_exc f n st (.obj fs) t .typeError hpres htm hge hs (by decide)]
    rfl

/-- Counterexample for C5: a payload whose `size` is a JSON list passes
checks 1 to 3 and violates check 4 (it does not parse as an integer),
yet it draws no 400 response at all: the uncaught `TypeError` surfaces
as the 500 envelope instead of the party-size-format message. -/
theorem validation_fail_fast_cex :
    specCheck1 listSizeBody = true ∧
    pyFromIso f0 (pyGet listSizeBody "time") = .ok 2000 ∧
    ¬ (2000 : Int) < 1000 ∧
    pyInt (pyGet listSizeBody "size") = .error .typeError ∧
    msg400 (create_reservation f0 1000 st0 listSizeBody).1 = none ∧
    (appCreate f0 1000 st0 listSizeBody).1 = abortResp 500 internalErrMsg ∧
    firstFailMsg f0 1000 listSizeBody = some sizeFmtMsg :=
  ⟨rfl, rfl, by decide, rfl, rfl, rfl, rfl⟩

/-- Witness for C5: the string "0" as `size` reaches check 5 and draws
its message as the earliest violated check; a payload whose date is
unparseable and whose `size` is a list draws the date message of check
2, the size check never being reached; the list payload with a valid
future date draws the 500 envelope. -/
theorem validation_fail_fast_witness :
    msg400 (create_reservation f0 1000 st0 zeroStrBody).1 =
      firstFailMsg f0 1000 zeroStrBody ∧
    msg400 (create_reservation f0 1000 st0 badDateListBody).1 =
      firstFailMsg f0 1000 badDateListBody ∧
    (appCreate f0 1000 st0 listSizeBody).1 = abortResp 500 internalErrMsg := by
  refine ⟨?_, ?_, ?_⟩
  · exact (validation_fail_fast f0 1000 st0
      [("name", .str "Batman"), ("email", .str "b@w.com"),
       ("size", .str "0"), ("time", .str "2030-01-01T12:00")] (by decide)).1 (by decide)
  · exact (validation_fail_fast f0 1000 st0
      [("name", .str "Batman"), ("email", .str "b@w.com"),
       ("size", .arr [.num 1]), ("time", .str "not-a-date")] (by decide)).1 (by decide)
  · exact (validation_fail_fast f0 1000 st0
      [("name", .str "Batman"), ("email", .str "b@w.com"),
       ("size", .arr [.num 1]), ("time", .str "2030-01-01T12:00")] (by decide)).2
      2000 rfl rfl (by decide) rfl

end FlaskRes
